import Mathlib

/-!
Shallow embedding of the gamezone POS backend's session lifecycle and
billing engine (sessionService, checkoutService, consoleService).

Modelling conventions:
- epoch times and durations are integers (milliseconds), money values are
  rationals;
- nullable database columns are Option-valued; the JS pattern
  "col || fallback" on a decimal column read back as a string is modelled
  as Option.getD (null picks the fallback, a stored value - even "0.00",
  a truthy string - is used as is);
- each database-touching service function becomes a function from a
  database state to a pair of the successor state and an Except result;
  a function that runs inside db.transaction returns the caller's
  original state whenever it returns an error (rollback), which is made
  explicit by a wrapper that discards the partially mutated state;
- nondeterministic identifier generation (ulid) and the wall clock are
  passed in as explicit parameters.
-/

/-- Rounding to two decimals, the model of JS Number.prototype.toFixed(2)
followed by re-parsing the string. -/
def round2 (x : ℚ) : ℚ := (round (x * 100) : ℤ) / 100

/-- Console status enumeration (consoles.status column). -/
inductive CStatus
  | available
  | inUse
  | maintenance
  | reserved
deriving DecidableEq, Repr

/-- Gaming mode enumeration (sessions.gaming_mode column). -/
inductive Mode
  | m1v1
  | m2v2
deriving DecidableEq, Repr

/-- Session status enumeration (sessions.status column). -/
inductive SStatus
  | active
  | paused
  | ended
deriving DecidableEq, Repr

/-- A row of the consoles table (the fields the core reads). hourly_rate_2v2
is nullable, hence Option. -/
structure Console where
  name : String
  type : String
  status : CStatus
  rate1v1 : ℚ
  rate2v2 : Option ℚ
deriving DecidableEq, Repr

/-- A row of the sessions table. -/
structure Session where
  consoleId : String
  startTime : ℤ
  endTime : Option ℤ
  status : SStatus
  gamingMode : Mode
  pausedAt : Option ℤ
  totalPausedDuration : ℤ
  finalCost : Option ℚ
deriving DecidableEq, Repr

/-- A row of the products table (the fields the core reads). -/
structure Product where
  name : String
  price : ℚ
  stock : ℤ
deriving DecidableEq, Repr

/-- A row of the session_items table (the running tab). -/
structure SessionItem where
  sessionId : String
  productId : String
  quantity : ℤ
  unitPrice : ℚ
  subtotal : ℚ
deriving DecidableEq, Repr

/-- A row of the receipts table (the fields processCheckout writes). -/
structure ReceiptRow where
  id : String
  sessionId : Option String
  subtotal : ℚ
  tax : ℚ
  total : ℚ
  paymentMethod : String
  manualConsolePrice : Option ℚ
  calculatedConsolePrice : Option ℚ
  gamingMode : Option Mode
  baseHourlyRate : Option ℚ
  hourlyRate2v2 : Option ℚ
deriving DecidableEq, Repr

/-- A line of the receipt_items table / the items array of the returned
receipt. -/
structure ReceiptLine where
  productId : String
  productName : String
  quantity : ℤ
  unitPrice : ℚ
  subtotal : ℚ
deriving DecidableEq, Repr

/-- The consoleUsage snapshot embedded in the receipt returned by
processCheckout. -/
structure ConsoleUsage where
  consoleName : String
  consoleType : String
  gamingMode : Mode
  duration : ℤ
  rate : ℚ
  baseRate : ℚ
  rate2v2 : ℚ
  calculatedCost : ℚ
  finalCost : ℚ
  subtotal : ℚ
deriving DecidableEq, Repr

/-- The receipt value returned by processCheckout. -/
structure Receipt where
  id : String
  sessionId : Option String
  consoleUsage : Option ConsoleUsage
  items : List ReceiptLine
  subtotal : ℚ
  tax : ℚ
  total : ℚ
  paymentMethod : String
deriving DecidableEq, Repr

/-- The relational store: the tables the core reads and writes. Tables
keyed by id are total functions to Option rows; insert-only tables are
lists. -/
structure DBState where
  consoles : String → Option Console
  sessions : String → Option Session
  products : String → Option Product
  sessionItems : List SessionItem
  receipts : List ReceiptRow
  receiptItems : List (String × ReceiptLine)

def DBState.setConsole (σ : DBState) (id : String) (c : Console) : DBState :=
  { σ with consoles := fun i => if i = id then some c else σ.consoles i }

def DBState.setSession (σ : DBState) (id : String) (s : Session) : DBState :=
  { σ with sessions := fun i => if i = id then some s else σ.sessions i }

def DBState.setProduct (σ : DBState) (id : String) (p : Product) : DBState :=
  { σ with products := fun i => if i = id then some p else σ.products i }

/-- Errors thrown by the session service functions, one constructor per
distinct throw site. -/
inductive SessionError
  | consoleUnavailable
  | unsupported2v2
  | noValidRate
  | activeSessionNotFound
  | pausedSessionNotFound
  | sessionNotFoundOrEnded
  | associatedConsoleNotFound
  | sessionNotActiveOrNotFound
  | productNotFound
  | insufficientStock
deriving DecidableEq, Repr

/-- The two rate-validation errors of startSession: thrown when the
requested gaming mode has no positive hourly rate configured. -/
def SessionError.isUnsupportedModeError : SessionError → Bool
  | .unsupported2v2 => true
  | .noValidRate => true
  | _ => false

/-- The hourly rate startSession reads for a requested mode:
parseFloat(hourly_rate) for 1v1, parseFloat(hourly_rate_2v2 or zero)
for 2v2. -/
def startModeRate (c : Console) : Mode → ℚ
  | .m1v1 => c.rate1v1
  | .m2v2 => c.rate2v2.getD 0

/-- The availability check of startSession: the console row exists and
its status is available. -/
def consoleAvailableB (σ : DBState) (cid : String) : Bool :=
  match σ.consoles cid with
  | some c => decide (c.status = .available)
  | none => false

/-- sessionService.startSession. Runs in a transaction; all throws happen
before any write, so an error leaves the state untouched. The fresh
session id (ulid in the source) is the sid parameter, the wall clock is
now. -/
def startSession (σ : DBState) (consoleId : String) (gamingMode : Mode)
    (now : ℤ) (sid : String) : DBState × Except SessionError Session :=
  match σ.consoles consoleId with
  | none => (σ, .error .consoleUnavailable)
  | some c =>
    if c.status ≠ .available then (σ, .error .consoleUnavailable)
    else
      let baseRate := c.rate1v1
      let rate2v2 := c.rate2v2.getD 0
      if gamingMode = .m2v2 ∧ rate2v2 ≤ 0 then (σ, .error .unsupported2v2)
      else if baseRate ≤ 0 then (σ, .error .noValidRate)
      else
        let s : Session :=
          { consoleId := consoleId
            startTime := now
            endTime := none
            status := .active
            gamingMode := gamingMode
            pausedAt := none
            totalPausedDuration := 0
            finalCost := none }
        ((σ.setConsole consoleId { c with status := .inUse }).setSession sid s,
          .ok s)

/-- findSessionById: fetches the session row joined with its console, so
the result is null when either the session or its console row is
missing. -/
def findSessionRow (σ : DBState) (sid : String) : Option Session :=
  (σ.sessions sid).bind fun s => (σ.consoles s.consoleId).map fun _ => s

/-- sessionService.pauseSession. The source first issues
UPDATE sessions SET status='paused', paused_at=now WHERE id=sid AND
status='active' (a no-op when the session is not active), then re-fetches
the row with findSessionById (no status filter) and throws only when that
fetch returns nothing, i.e. only when the session row (or its joined
console) does not exist at all. -/
def pauseSession (σ : DBState) (sid : String) (now : ℤ) :
    DBState × Except SessionError Session :=
  let σ' :=
    match σ.sessions sid with
    | some s =>
      if s.status = .active then
        σ.setSession sid { s with status := .paused, pausedAt := some now }
      else σ
    | none => σ
  match findSessionRow σ' sid with
  | none => (σ', .error .activeSessionNotFound)
  | some s => (σ', .ok s)

/-- sessionService.resumeSession. Fetches the row WHERE id=sid AND
status='paused'; throws when absent or when paused_at is null; otherwise
adds now - paused_at to total_paused_duration, clears paused_at and sets
the status back to active. -/
def resumeSession (σ : DBState) (sid : String) (now : ℤ) :
    DBState × Except SessionError Session :=
  match σ.sessions sid with
  | none => (σ, .error .pausedSessionNotFound)
  | some s =>
    if s.status = .paused then
      match s.pausedAt with
      | none => (σ, .error .pausedSessionNotFound)
      | some tp =>
        let pausedDuration := now - tp
        let s' := { s with
          status := .active
          pausedAt := none
          totalPausedDuration := s.totalPausedDuration + pausedDuration }
        (σ.setSession sid s', .ok s')
    else (σ, .error .pausedSessionNotFound)

/-- The open pause interval endSession folds into the subtracted paused
time: now - paused_at when the session is currently paused with a
recorded paused_at, zero otherwise. -/
def openPauseMs (s : Session) (now : ℤ) : ℤ :=
  match s.status, s.pausedAt with
  | .paused, some tp => now - tp
  | _, _ => 0

/-- sessionService.endSession. Runs in a transaction; all throws happen
before any write. Clamps the active duration at zero, picks the rate from
the gaming mode stored on the session (2v2 falling back to the base rate
when hourly_rate_2v2 is null), stores the cost rounded to two decimals
and releases the console. -/
def endSession (σ : DBState) (sid : String) (now : ℤ) :
    DBState × Except SessionError Session :=
  match σ.sessions sid with
  | none => (σ, .error .sessionNotFoundOrEnded)
  | some s =>
    if s.status = .ended then (σ, .error .sessionNotFoundOrEnded)
    else
      match σ.consoles s.consoleId with
      | none => (σ, .error .associatedConsoleNotFound)
      | some c =>
        let activeDuration := now - s.startTime
        let totalPausedMs := s.totalPausedDuration + openPauseMs s now
        let finalActiveMs := activeDuration - totalPausedMs
        let durationHours : ℚ := ((max 0 finalActiveMs : ℤ) : ℚ) / 3600000
        let baseRate := c.rate1v1
        let rate2v2 := c.rate2v2.getD baseRate
        let usedRate := if s.gamingMode = .m2v2 then rate2v2 else baseRate
        let finalCost := durationHours * usedRate
        let s' := { s with
          status := .ended
          endTime := some now
          finalCost := some (round2 finalCost)
          pausedAt := none
          totalPausedDuration := totalPausedMs }
        ((σ.setSession sid s').setConsole s.consoleId
            { c with status := .available },
          .ok s')

/-- sessionService.addItemToSession. Runs in a transaction; the three
validations precede the stock decrement and the tab insert. The source
has no quantity > 0 check: the only stock guard is stock < quantity. -/
def addItemToSession (σ : DBState) (sid productId : String) (quantity : ℤ) :
    DBState × Except SessionError SessionItem :=
  match σ.sessions sid with
  | none => (σ, .error .sessionNotActiveOrNotFound)
  | some s =>
    if s.status = .ended then (σ, .error .sessionNotActiveOrNotFound)
    else
      match σ.products productId with
      | none => (σ, .error .productNotFound)
      | some p =>
        if p.stock < quantity then (σ, .error .insufficientStock)
        else
          let item : SessionItem :=
            { sessionId := sid
              productId := productId
              quantity := quantity
              unitPrice := p.price
              subtotal := p.price * quantity }
          ({ σ.setProduct productId { p with stock := p.stock - quantity } with
              sessionItems := σ.sessionItems ++ [item] },
            .ok item)

/-- checkoutService errors, one constructor per throw site. -/
inductive CheckoutError
  | sessionNotFound
  | sessionNotEnded
  | duplicateCheckout
  | costNotCalculated
  | consoleNotFound
  | negativePrice
  | productNotFound (productId : String)
  | insufficientStock (productId : String)
deriving DecidableEq, Repr

/-- A cart item handed to processCheckout. -/
structure CartItem where
  productId : String
  quantity : ℤ
deriving DecidableEq, Repr

/-- TAX_RATE = 0 in checkoutService. -/
def TAX_RATE : ℚ := 0

/-- The session-charge branch of processCheckout (steps executed when a
sessionId is supplied). Reads only; returns the charged console price
(the starting subtotal) and the consoleUsage snapshot. -/
def sessionBranch (σ : DBState) :
    Option String → Option ℚ → Except CheckoutError (ℚ × Option ConsoleUsage)
  | none, _ => .ok (0, none)
  | some sid, manualConsolePrice =>
    match σ.sessions sid with
    | none => .error .sessionNotFound
    | some s =>
      if s.status ≠ .ended then .error .sessionNotEnded
      else if σ.receipts.any (fun r => r.sessionId = some sid) then
        .error .duplicateCheckout
      else
        match s.finalCost with
        | none => .error .costNotCalculated
        | some fc =>
          match σ.consoles s.consoleId with
          | none => .error .consoleNotFound
          | some c =>
            let gamingMode := s.gamingMode
            let baseHourlyRate := c.rate1v1
            let hourlyRate2v2 := c.rate2v2.getD (baseHourlyRate * (3 / 2))
            let usedHourlyRate :=
              if gamingMode = .m2v2 then hourlyRate2v2 else baseHourlyRate
            let finalConsolePrice := manualConsolePrice.getD fc
            if finalConsolePrice < 0 then .error .negativePrice
            else
              let activeDurationMs : ℤ :=
                s.endTime.getD 0 - s.startTime - s.totalPausedDuration
              .ok (finalConsolePrice,
                some
                  { consoleName := c.name
                    consoleType := c.type
                    gamingMode := gamingMode
                    duration := round ((activeDurationMs : ℚ) / 60000)
                    rate := usedHourlyRate
                    baseRate := baseHourlyRate
                    rate2v2 := hourlyRate2v2
                    calculatedCost := fc
                    finalCost := finalConsolePrice
                    subtotal := finalConsolePrice })

/-- The cart-items loop of processCheckout. Threads the store through the
per-item lookup / stock check / decrement; on a throw it surfaces the
partially mutated state (the enclosing transaction discards it). -/
def processItemsLoop (σ : DBState) :
    List CartItem → ℚ → List ReceiptLine →
      DBState × Except CheckoutError (ℚ × List ReceiptLine)
  | [], subtotal, lines => (σ, .ok (subtotal, lines))
  | item :: rest, subtotal, lines =>
    match σ.products item.productId with
    | none => (σ, .error (.productNotFound item.productId))
    | some p =>
      if p.stock < item.quantity then
        (σ, .error (.insufficientStock item.productId))
      else
        let σ' := σ.setProduct item.productId
          { p with stock := p.stock - item.quantity }
        let itemSubtotal := p.price * item.quantity
        processItemsLoop σ' rest (subtotal + itemSubtotal)
          (lines ++ [{ productId := item.productId
                       productName := p.name
                       quantity := item.quantity
                       unitPrice := p.price
                       subtotal := itemSubtotal }])

/-- The body of processCheckout's transaction: session branch, cart loop,
receipt insert. Returns the mutated state (possibly partial on error)
together with the result. The fresh receipt id (ulid in the source) is
the rid parameter. -/
def checkoutBody (σ : DBState) (items : List CartItem) (paymentMethod : String)
    (sessionId : Option String) (manualConsolePrice : Option ℚ)
    (rid : String) : DBState × Except CheckoutError Receipt :=
  match sessionBranch σ sessionId manualConsolePrice with
  | .error e => (σ, .error e)
  | .ok (sub0, consoleUsageData) =>
    match processItemsLoop σ items sub0 [] with
    | (σ1, .error e) => (σ1, .error e)
    | (σ1, .ok (subtotal, lines)) =>
      let tax := subtotal * TAX_RATE
      let total := subtotal + tax
      let row : ReceiptRow :=
        { id := rid
          sessionId := sessionId
          subtotal := round2 subtotal
          tax := round2 tax
          total := round2 total
          paymentMethod := paymentMethod
          manualConsolePrice :=
            match consoleUsageData, manualConsolePrice with
            | some u, some _ => some (round2 u.finalCost)
            | _, _ => none
          calculatedConsolePrice :=
            consoleUsageData.map fun u => round2 u.calculatedCost
          gamingMode := consoleUsageData.map fun u => u.gamingMode
          baseHourlyRate := consoleUsageData.map fun u => round2 u.baseRate
          hourlyRate2v2 := consoleUsageData.map fun u => round2 u.rate2v2 }
      let σ2 := { σ1 with
        receipts := σ1.receipts ++ [row]
        receiptItems := σ1.receiptItems ++ lines.map fun l => (rid, l) }
      (σ2,
        .ok
          { id := rid
            sessionId := sessionId
            consoleUsage := consoleUsageData
            items := lines
            subtotal := round2 subtotal
            tax := round2 tax
            total := round2 total
            paymentMethod := paymentMethod })

/-- checkoutService.processCheckout: the body runs inside one
db.transaction, so an error rolls every mutation back and the caller
observes the original state. -/
def processCheckout (σ : DBState) (items : List CartItem)
    (paymentMethod : String) (sessionId : Option String)
    (manualConsolePrice : Option ℚ) (rid : String) :
    DBState × Except CheckoutError Receipt :=
  match checkoutBody σ items paymentMethod sessionId manualConsolePrice rid with
  | (_, .error e) => (σ, .error e)
  | (σ', .ok r) => (σ', .ok r)

/-- checkoutService.calculateSessionCost: recomputes an ended session's
cost from the stored times and the console's current rates, with the 2v2
rate falling back to 1.5 times the base rate when hourly_rate_2v2 is
null. The inner join with consoles makes a missing console row
indistinguishable from a missing session. -/
def calculateSessionCost (σ : DBState) (sid : String) (gamingMode : Mode) :
    Except CheckoutError ℚ :=
  match σ.sessions sid with
  | none => .error .sessionNotFound
  | some s =>
    match σ.consoles s.consoleId with
    | none => .error .sessionNotFound
    | some c =>
      if s.status ≠ .ended then .error .sessionNotEnded
      else
        let totalDurationMs : ℤ := s.endTime.getD 0 - s.startTime
        let activeDurationMs : ℤ := max 0 (totalDurationMs - s.totalPausedDuration)
        let durationHours : ℚ := (activeDurationMs : ℚ) / 3600000
        let baseRate := c.rate1v1
        let rate2v2 := c.rate2v2.getD (baseRate * (3 / 2))
        let usedRate := if gamingMode = .m2v2 then rate2v2 else baseRate
        .ok (round2 (durationHours * usedRate))

/-- The per-item cart subtotal expressed over the initial store: each
line contributes price times quantity at the product's current price
(stock decrements during the loop do not change prices). -/
def cartTotal (σ : DBState) (items : List CartItem) : ℚ :=
  (items.map fun it =>
    ((σ.products it.productId).map Product.price).getD 0 * it.quantity).sum

/-- A session lifecycle call together with the wall-clock instant it is
issued at, for stating trace properties of the engine. -/
inductive SessionOp
  | pause (t : ℤ)
  | resume (t : ℤ)
  | stop (t : ℤ)
deriving DecidableEq, Repr

def SessionOp.time : SessionOp → ℤ
  | .pause t => t
  | .resume t => t
  | .stop t => t

/-- The state reached by issuing one lifecycle call (its returned value
and error, if any, are discarded; a failed call leaves the state as the
service leaves it). -/
def applyOp (σ : DBState) (sid : String) : SessionOp → DBState
  | .pause t => (pauseSession σ sid t).1
  | .resume t => (resumeSession σ sid t).1
  | .stop t => (endSession σ sid t).1

def applyOps (σ : DBState) (sid : String) : List SessionOp → DBState
  | [] => σ
  | op :: rest => applyOps (applyOp σ sid op) sid rest

/-- The stored total_paused_duration of a session (zero when absent). -/
def totalPausedOf (σ : DBState) (sid : String) : ℤ :=
  match σ.sessions sid with
  | some s => s.totalPausedDuration
  | none => 0

/-- Clock sanity of a state at instant t: a recorded paused_at of the
session lies in the past. -/
def pausedAtLeB (σ : DBState) (sid : String) (t : ℤ) : Bool :=
  match σ.sessions sid with
  | some s =>
    match s.pausedAt with
    | some tp => decide (tp ≤ t)
    | none => true
  | none => true

/-- The call instants of a trace are non-decreasing, starting no earlier
than t. -/
def chronoB : ℤ → List SessionOp → Bool
  | _, [] => true
  | t, op :: rest => decide (t ≤ op.time) && chronoB op.time rest

/- Concrete states used by witnesses and counterexamples. -/

/-- A console record used by the concrete scenarios. -/
def conW : Console :=
  { name := "Console 1", type := "PS5", status := .inUse,
    rate1v1 := 8, rate2v2 := some 12 }

/-- Scenario state for ending a session: active 1v1 session on conW,
started at 0 with 900000 ms of recorded pause. -/
def sesW1 : Session :=
  { consoleId := "c1", startTime := 0, endTime := none, status := .active,
    gamingMode := .m1v1, pausedAt := none, totalPausedDuration := 900000,
    finalCost := none }

def σW1 : DBState :=
  { consoles := fun i => if i = "c1" then some conW else none
    sessions := fun i => if i = "s1" then some sesW1 else none
    products := fun _ => none
    sessionItems := []
    receipts := []
    receiptItems := [] }

/-- Scenario state for checkout item processing: two products, the second
with too little stock for the scenario cart. -/
def σW2 : DBState :=
  { consoles := fun _ => none
    sessions := fun _ => none
    products := fun i =>
      if i = "p1" then some { name := "Cola", price := 2, stock := 5 }
      else if i = "p2" then some { name := "Chips", price := 3, stock := 1 }
      else none
    sessionItems := []
    receipts := []
    receiptItems := [] }

/-- The scenario cart: first line is satisfiable, second exceeds stock. -/
def cartW2 : List CartItem :=
  [{ productId := "p1", quantity := 2 }, { productId := "p2", quantity := 5 }]

/-- An ended, not-yet-paid session (calculated cost 8.00) on an available
console, for the checkout scenarios. -/
def sesW3 : Session :=
  { consoleId := "c1", startTime := 0, endTime := some 3600000,
    status := .ended, gamingMode := .m1v1, pausedAt := none,
    totalPausedDuration := 0, finalCost := some 8 }

def σW3 : DBState :=
  { consoles := fun i =>
      if i = "c1" then some { conW with status := .available } else none
    sessions := fun i => if i = "s1" then some sesW3 else none
    products := fun _ => none
    sessionItems := []
    receipts := []
    receiptItems := [] }

/-- A currently paused session (with its console present), the failing
input for the pause state-machine check. -/
def sesW5 : Session :=
  { consoleId := "c1", startTime := 0, endTime := none, status := .paused,
    gamingMode := .m1v1, pausedAt := some 600000,
    totalPausedDuration := 0, finalCost := none }

def σW5 : DBState :=
  { consoles := fun i => if i = "c1" then some conW else none
    sessions := fun i => if i = "s1" then some sesW5 else none
    products := fun _ => none
    sessionItems := []
    receipts := []
    receiptItems := [] }

/-- Scenario state for adding items to a running session: prod-1 has
stock 45 at price 2.50. -/
def σW6 : DBState :=
  { consoles := fun i => if i = "c1" then some conW else none
    sessions := fun i =>
      if i = "s1" then some { sesW1 with totalPausedDuration := 0 } else none
    products := fun i =>
      if i = "p1" then some { name := "prod-1", price := 5 / 2, stock := 45 }
      else none
    sessionItems := []
    receipts := []
    receiptItems := [] }

/-- A running 2v2 session on a console with no stored 2v2 rate (base
rate 6). -/
def σW7 : DBState :=
  { consoles := fun i =>
      if i = "c1" then
        some { name := "Console 1", type := "PS5", status := .inUse,
               rate1v1 := 6, rate2v2 := none }
      else none
    sessions := fun i =>
      if i = "s1" then
        some { consoleId := "c1", startTime := 0, endTime := none,
               status := .active, gamingMode := .m2v2, pausedAt := none,
               totalPausedDuration := 0, finalCost := none }
      else none
    products := fun _ => none
    sessionItems := []
    receipts := []
    receiptItems := [] }

/-- The state after ending the 2v2 session of σW7 one hour in. -/
def σW7end : DBState := (endSession σW7 "s1" 3600000).1

/-- A maintenance console and a zero-rate available console, for the
start-session failure scenarios. -/
def σW9 : DBState :=
  { consoles := fun i =>
      if i = "c1" then some { conW with status := .maintenance }
      else if i = "c2" then
        some { name := "Console 2", type := "PS4", status := .available,
               rate1v1 := 0, rate2v2 := none }
      else if i = "c3" then some { conW with status := .available }
      else none
    sessions := fun _ => none
    products := fun _ => none
    sessionItems := []
    receipts := []
    receiptItems := [] }

/-- An ended billable session whose console row no longer exists. -/
def σW10 : DBState :=
  { consoles := fun _ => none
    sessions := fun i =>
      if i = "s1" then some { sesW3 with consoleId := "ghost" } else none
    products := fun _ => none
    sessionItems := []
    receipts := []
    receiptItems := [] }

/- Helper lemmas. -/

theorem round2_nonneg {x : ℚ} (hx : 0 ≤ x) : 0 ≤ round2 x := by
  have h1 : (0 : ℤ) ≤ round (x * 100) := by
    rw [round_eq]
    refine Int.floor_nonneg.mpr ?_
    nlinarith
  unfold round2
  exact div_nonneg (by exact_mod_cast h1) (by norm_num)

/-- C1: ending a non-ended session stores status ended and
finalCost = round2 of max(0, (T1 - T0) - (P0 + open pause)) / 3600000
times the rate selected by the gaming mode (the stored 2v2 rate, the 1v1
rate when that is null or the mode is 1v1); under the non-negative rates
enforced by the console service the stored cost is never negative. -/
theorem endSession_finalCost_formula (σ : DBState) (sid : String) (now : ℤ)
    (s : Session) (c : Console)
    (hs : σ.sessions sid = some s) (hne : s.status ≠ .ended)
    (hc : σ.consoles s.consoleId = some c)
    (h1 : 0 ≤ c.rate1v1) (h2 : 0 ≤ c.rate2v2.getD c.rate1v1) :
    ∃ s', (endSession σ sid now).1.sessions sid = some s' ∧
      (endSession σ sid now).2 = .ok s' ∧
      s'.status = .ended ∧
      s'.finalCost = some (round2
        ((((max 0 (now - s.startTime -
            (s.totalPausedDuration + openPauseMs s now))) : ℤ) : ℚ) / 3600000 *
          (if s.gamingMode = .m2v2 then c.rate2v2.getD c.rate1v1
           else c.rate1v1))) ∧
      ∀ q, s'.finalCost = some q → 0 ≤ q := by
  have hrate : 0 ≤ (if s.gamingMode = .m2v2 then c.rate2v2.getD c.rate1v1
      else c.rate1v1) := by
    split <;> assumption
  have hdur : (0 : ℚ) ≤
      (((max 0 (now - s.startTime -
        (s.totalPausedDuration + openPauseMs s now))) : ℤ) : ℚ) / 3600000 := by
    refine div_nonneg ?_ (by norm_num)
    exact_mod_cast le_max_left 0 _
  refine ⟨{ s with
              status := .ended
              endTime := some now
              finalCost := some (round2
                ((((max 0 (now - s.startTime -
                  (s.totalPausedDuration + openPauseMs s now))) : ℤ) : ℚ) /
                  3600000 *
                  (if s.gamingMode = .m2v2 then c.rate2v2.getD c.rate1v1
                    else c.rate1v1)))
              pausedAt := none
              totalPausedDuration :=
                s.totalPausedDuration + openPauseMs s now },
    ?_, ?_, rfl, rfl, ?_⟩
  · simp [endSession, hs, hne, hc, DBState.setSession, DBState.setConsole]
  · simp [endSession, hs, hne, hc]
  · intro q hq
    rw [Option.some_inj] at hq
    subst hq
    exact round2_nonneg (mul_nonneg hdur hrate)

/-- Witness for endSession_finalCost_formula at the spec scenario state:
session started at 0, 900000 ms paused, ended at 4500000 on an 8/hour
console, final cost 8. -/
theorem endSession_finalCost_formula_witness :
    σW1.sessions "s1" = some sesW1 ∧
    ∃ s', (endSession σW1 "s1" 4500000).1.sessions "s1" = some s' ∧
      (endSession σW1 "s1" 4500000).2 = .ok s' ∧
      s'.status = .ended ∧
      s'.finalCost = some (round2
        ((((max 0 (4500000 - sesW1.startTime -
            (sesW1.totalPausedDuration + openPauseMs sesW1 4500000))) : ℤ) : ℚ) /
            3600000 *
          (if sesW1.gamingMode = .m2v2 then conW.rate2v2.getD conW.rate1v1
           else conW.rate1v1))) ∧
      ∀ q, s'.finalCost = some q → 0 ≤ q := by
  refine ⟨rfl, ?_⟩
  exact endSession_finalCost_formula σW1 "s1" 4500000 sesW1 conW rfl
    (by decide) rfl (by norm_num [conW]) (by norm_num [conW])


/-- C5: evaluating pauseSession at a currently paused session (console
present). The filtered UPDATE matches no row, the unfiltered re-fetch
finds the session, so the call succeeds and returns the unchanged paused
session instead of failing with an invalid-transition error. -/
theorem pauseSession_on_paused_returns_ok :
    (pauseSession σW5 "s1" 700000).1 = σW5 ∧
    (pauseSession σW5 "s1" 700000).2 = .ok sesW5 ∧
    sesW5.status = .paused :=
  ⟨rfl, rfl, rfl⟩

/-- C6 amended: addItemToSession succeeds iff the session exists and is
not ended, the product exists and its stock is at least the requested
quantity; the service enforces no quantity > 0 requirement. On success
the stock drops by exactly the quantity and one tab line is appended at
the current unit price with subtotal = quantity * unitPrice; on failure
the state is unchanged. -/
theorem addItemToSession_spec (σ : DBState) (sid pid : String) (qty : ℤ) :
    ((∃ r, (addItemToSession σ sid pid qty).2 = .ok r) ↔
      ((∃ s, σ.sessions sid = some s ∧ s.status ≠ .ended) ∧
        (∃ p, σ.products pid = some p ∧ qty ≤ p.stock))) ∧
    (∀ p, σ.products pid = some p →
      ∀ σ' r, addItemToSession σ sid pid qty = (σ', .ok r) →
        σ'.products pid = some { p with stock := p.stock - qty } ∧
        (∀ x, x ≠ pid → σ'.products x = σ.products x) ∧
        σ'.sessionItems = σ.sessionItems ++
          [{ sessionId := sid, productId := pid, quantity := qty,
             unitPrice := p.price, subtotal := p.price * qty }]) ∧
    (∀ e, (addItemToSession σ sid pid qty).2 = .error e →
      (addItemToSession σ sid pid qty).1 = σ) := by
  rcases hs : σ.sessions sid with _ | s
  · simp [addItemToSession, hs]
  · by_cases hend : s.status = .ended
    · simp [addItemToSession, hs, hend]
    · rcases hp : σ.products pid with _ | p
      · simp [addItemToSession, hs, hend, hp]
      · by_cases hq : p.stock < qty
        · refine ⟨?_, ?_, ?_⟩
          · simp [addItemToSession, hs, hend, hp, hq]
          · intro p' hp' σ' r heq
            simp [addItemToSession, hs, hend, hp, hq] at heq
          · intro e he
            simp [addItemToSession, hs, hend, hp, hq]
        · refine ⟨?_, ?_, ?_⟩
          · simp [addItemToSession, hs, hend, hp, hq]
            omega
          · intro p' hp' σ' r heq
            have hpe : p' = p := (Option.some.inj hp').symm
            subst hpe
            simp [addItemToSession, hs, hend, hp, hq] at heq
            obtain ⟨hσ', _⟩ := heq
            subst hσ'
            refine ⟨?_, ?_, ?_⟩
            · simp [DBState.setProduct]
            · intro x hx
              simp [DBState.setProduct, hx]
            · simp [DBState.setProduct]
          · intro e he
            simp [addItemToSession, hs, hend, hp, hq] at he

/-- C6 counterexample: with prod-1 in stock and the session running, the
service accepts quantity 0, which the claim requires it to reject (the
claimed iff demands quantity > 0 for success). -/
theorem addItemToSession_zero_quantity_succeeds :
    (∃ r, (addItemToSession σW6 "s1" "p1" 0).2 = .ok r) ∧ ¬ ((0 : ℤ) > 0) :=
  ⟨⟨_, rfl⟩, by norm_num⟩

/-- Witness for addItemToSession_spec at the spec scenario: stock 45,
quantity 3, price 2.50. -/
theorem addItemToSession_spec_witness :
    (∃ s, σW6.sessions "s1" = some s ∧ s.status ≠ .ended) ∧
    (∃ p, σW6.products "p1" = some p ∧ (3 : ℤ) ≤ p.stock) ∧
    (∃ r, (addItemToSession σW6 "s1" "p1" 3).2 = .ok r) := by
  refine ⟨⟨_, rfl, by decide⟩, ⟨_, rfl, by norm_num⟩, ?_⟩
  exact (addItemToSession_spec σW6 "s1" "p1" 3).1.mpr
    ⟨⟨_, rfl, by decide⟩, ⟨_, rfl, by norm_num⟩⟩

/-- C9: startSession fails with the console-unavailable error whenever
the console is missing or its status is not available, for every
requested mode; on an available console whose requested-mode rate is not
positive it fails with one of the two rate-validation errors (the
unsupported-mode family); on success the created session is active and
the console is set to in-use. -/
theorem startSession_spec :
    (∀ σ cid mode now sid, consoleAvailableB σ cid = false →
      startSession σ cid mode now sid = (σ, .error .consoleUnavailable)) ∧
    (∀ σ cid mode now sid c, σ.consoles cid = some c →
      c.status = .available → startModeRate c mode ≤ 0 →
      ∃ e, startSession σ cid mode now sid = (σ, .error e) ∧
        e.isUnsupportedModeError = true) ∧
    (∀ σ cid mode now sid s,
      (startSession σ cid mode now sid).2 = .ok s →
      s.status = .active ∧
      (startSession σ cid mode now sid).1.sessions sid = some s ∧
      ∃ c', (startSession σ cid mode now sid).1.consoles cid = some c' ∧
        c'.status = .inUse) := by
  refine ⟨?_, ?_, ?_⟩
  · intro σ cid mode now sid hav
    rcases hc : σ.consoles cid with _ | c
    · simp [startSession, hc]
    · unfold consoleAvailableB at hav
      rw [hc] at hav
      simp at hav
      simp [startSession, hc, hav]
  · intro σ cid mode now sid c hc hav hrate
    rcases mode with _ | _
    · rw [startModeRate] at hrate
      refine ⟨.noValidRate, ?_, rfl⟩
      simp [startSession, hc, hav, hrate]
    · rw [startModeRate] at hrate
      refine ⟨.unsupported2v2, ?_, rfl⟩
      simp [startSession, hc, hav, hrate]
  · intro σ cid mode now sid s hok
    rcases hc : σ.consoles cid with _ | c
    · simp [startSession, hc] at hok
    · by_cases hav : c.status = .available
      · by_cases h2 : mode = .m2v2 ∧ c.rate2v2.getD 0 ≤ 0
        · simp [startSession, hc, hav, h2] at hok
        · by_cases hb : c.rate1v1 ≤ 0
          · simp [startSession, hc, hav, h2, hb] at hok
          · simp [startSession, hc, hav, h2, hb] at hok
            subst hok
            refine ⟨rfl, ?_, ?_⟩
            · simp [startSession, hc, hav, h2, hb, DBState.setSession,
                DBState.setConsole]
            · refine ⟨{ c with status := .inUse }, ?_, rfl⟩
              simp [startSession, hc, hav, h2, hb, DBState.setSession,
                DBState.setConsole]
      · simp [startSession, hc, hav] at hok

/-- Witness for startSession_spec: a maintenance console fails as
unavailable for 2v2, an available zero-rate console fails the 1v1 rate
validation, and a successful start yields an active session with the
console in-use. -/
theorem startSession_spec_witness :
    startSession σW9 "c1" .m2v2 0 "sX" = (σW9, .error .consoleUnavailable) ∧
    (∃ e, startSession σW9 "c2" .m1v1 0 "sX" = (σW9, .error e) ∧
      e.isUnsupportedModeError = true) ∧
    (∀ s, (startSession σW9 "c3" .m2v2 0 "sX").2 = .ok s →
      s.status = .active) := by
  refine ⟨?_, ?_, ?_⟩
  · exact startSession_spec.1 σW9 "c1" .m2v2 0 "sX" rfl
  · exact startSession_spec.2.1 σW9 "c2" .m1v1 0 "sX" _ rfl rfl
      (by rw [startModeRate])
  · intro s hok
    exact (startSession_spec.2.2 σW9 "c3" .m2v2 0 "sX" s hok).1

/-- C10: checkout of an ended, unpaid session with a stored cost whose
console row no longer exists fails with the console-not-found error and
leaves the whole state unchanged. -/
theorem processCheckout_missing_console (σ : DBState) (items : List CartItem)
    (pm : String) (sid : String) (ov : Option ℚ) (rid : String) (s : Session)
    (hs : σ.sessions sid = some s) (hend : s.status = .ended)
    (hdup : σ.receipts.any (fun r => r.sessionId = some sid) = false)
    (hfc : s.finalCost.isSome)
    (hcon : σ.consoles s.consoleId = none) :
    processCheckout σ items pm (some sid) ov rid =
      (σ, .error .consoleNotFound) := by
  obtain ⟨fc, hfc'⟩ := Option.isSome_iff_exists.mp hfc
  simp [processCheckout, checkoutBody, sessionBranch, hs, hend, hdup, hfc',
    hcon]

/-- Witness for processCheckout_missing_console: the ended session of
σW10 references console id ghost, which has no row. -/
theorem processCheckout_missing_console_witness :
    σW10.consoles "ghost" = none ∧
    processCheckout σW10 [] "cash" (some "s1") none "r1" =
      (σW10, .error .consoleNotFound) :=
  ⟨rfl, processCheckout_missing_console σW10 [] "cash" "s1" none "r1" _
    rfl rfl rfl rfl rfl⟩

theorem setProduct_price_map (σ : DBState) (pid : String) (p p' : Product)
    (hp : σ.products pid = some p) (hpr : p'.price = p.price) (x : String) :
    ((σ.setProduct pid p').products x).map Product.price =
      (σ.products x).map Product.price := by
  by_cases hx : x = pid
  · subst hx
    simp [DBState.setProduct, hp, hpr]
  · simp [DBState.setProduct, hx]

theorem processItemsLoop_preserves (items : List CartItem) (σ : DBState)
    (sub : ℚ) (lines : List ReceiptLine) :
    (∀ x, (processItemsLoop σ items sub lines).1.sessions x = σ.sessions x) ∧
    (processItemsLoop σ items sub lines).1.receipts = σ.receipts ∧
    (∀ x, ((processItemsLoop σ items sub lines).1.products x).map Product.price
      = (σ.products x).map Product.price) := by
  induction items generalizing σ sub lines with
  | nil => simp [processItemsLoop]
  | cons item rest ih =>
    rcases hp : σ.products item.productId with _ | p
    · simp [processItemsLoop, hp]
    · by_cases hq : p.stock < item.quantity
      · simp [processItemsLoop, hp, hq]
      · simp only [processItemsLoop, hp, hq, if_false, if_neg hq]
        refine ⟨?_, ?_, ?_⟩
        · intro x
          rw [(ih _ _ _).1 x]
          simp [DBState.setProduct]
        · rw [(ih _ _ _).2.1]
          rfl
        · intro x
          rw [(ih _ _ _).2.2 x]
          exact setProduct_price_map σ item.productId p
            { p with stock := p.stock - item.quantity } hp rfl x

theorem cartTotal_price_congr (σ τ : DBState)
    (h : ∀ x, (σ.products x).map Product.price =
      (τ.products x).map Product.price) (items : List CartItem) :
    cartTotal σ items = cartTotal τ items := by
  induction items with
  | nil => rfl
  | cons item rest ih =>
    simp only [cartTotal, List.map_cons, List.sum_cons] at *
    rw [h item.productId, ih]

theorem processItemsLoop_subtotal (items : List CartItem) (σ : DBState)
    (sub : ℚ) (lines : List ReceiptLine) (σ1 : DBState) (sub1 : ℚ)
    (lines1 : List ReceiptLine)
    (h : processItemsLoop σ items sub lines = (σ1, .ok (sub1, lines1))) :
    sub1 = sub + cartTotal σ items := by
  induction items generalizing σ sub lines with
  | nil =>
    simp [processItemsLoop] at h
    simp [cartTotal, h.2.1.symm]
  | cons item rest ih =>
    rcases hp : σ.products item.productId with _ | p
    · simp [processItemsLoop, hp] at h
    · by_cases hq : p.stock < item.quantity
      · simp [processItemsLoop, hp, hq] at h
      · simp only [processItemsLoop, hp, hq, if_neg hq] at h
        have hrec := ih _ _ _ h
        have hct : cartTotal
            (σ.setProduct item.productId
              { p with stock := p.stock - item.quantity }) rest =
            cartTotal σ rest := by
          refine cartTotal_price_congr _ _ (fun x => ?_) rest
          exact setProduct_price_map σ item.productId p
            { p with stock := p.stock - item.quantity } hp rfl x
        rw [hrec, hct]
        simp only [cartTotal, List.map_cons, List.sum_cons, hp]
        simp
        ring

theorem sessionBranch_some_ok_inv (σ : DBState) (sid : String) (ov : Option ℚ)
    (sub0 : ℚ) (usage : Option ConsoleUsage)
    (h : sessionBranch σ (some sid) ov = .ok (sub0, usage)) :
    ∃ s, σ.sessions sid = some s ∧ s.status = .ended ∧
      (σ.receipts.any fun rr => rr.sessionId = some sid) = false ∧
      ∃ fc, s.finalCost = some fc ∧ sub0 = ov.getD fc := by
  rcases hs : σ.sessions sid with _ | s
  · simp [sessionBranch, hs] at h
  · by_cases hend : s.status = .ended
    · by_cases hdup : (σ.receipts.any fun rr => rr.sessionId = some sid) = true
      · simp [sessionBranch, hs, hend, hdup] at h
      · rcases hfc : s.finalCost with _ | fc
        · simp [sessionBranch, hs, hend, hdup, hfc] at h
        · rcases hc : σ.consoles s.consoleId with _ | c
          · simp [sessionBranch, hs, hend, hdup, hfc, hc] at h
          · by_cases hneg : ov.getD fc < 0
            · simp [sessionBranch, hs, hend, hdup, hfc, hc, hneg] at h
            · simp [sessionBranch, hs, hend, hdup, hfc, hc, hneg] at h
              exact ⟨s, rfl, hend, by simpa using hdup, fc, hfc, h.1.symm⟩
    · simp [sessionBranch, hs, hend] at h

theorem processCheckout_ok_inv (σ : DBState) (items : List CartItem)
    (pm : String) (sid : Option String) (ov : Option ℚ) (rid : String)
    (σ' : DBState) (r : Receipt)
    (h : processCheckout σ items pm sid ov rid = (σ', .ok r)) :
    (∀ x, σ'.sessions x = σ.sessions x) ∧
    (∀ sid2, sid = some sid2 →
      (σ'.receipts.any fun rr => rr.sessionId = some sid2) = true) ∧
    (∃ z, sessionBranch σ sid ov = .ok z) := by
  rcases hsb : sessionBranch σ sid ov with e | z
  · simp [processCheckout, checkoutBody, hsb] at h
  · rcases z with ⟨sub0, usage⟩
    rcases hl : processItemsLoop σ items sub0 [] with ⟨σ1, res⟩
    rcases res with e | res
    · simp [processCheckout, checkoutBody, hsb, hl] at h
    · rcases res with ⟨sub1, lines1⟩
      simp only [processCheckout, checkoutBody, hsb, hl] at h
      rw [Prod.ext_iff] at h
      obtain ⟨hσ', hr⟩ := h
      dsimp only at hσ'
      subst hσ'
      refine ⟨?_, ?_, ⟨_, rfl⟩⟩
      · intro x
        have hpres := (processItemsLoop_preserves items σ sub0 []).1 x
        rw [hl] at hpres
        exact hpres
      · intro sid2 hsid
        subst hsid
        simp

/-- C2: if any step of processCheckout fails (missing product,
insufficient stock, duplicate checkout, negative charged price, or any
other throw), the transaction rolls back: no receipt is persisted and
every product's stock count is unchanged, including products whose stock
was decremented earlier in the same call. -/
theorem processCheckout_error_rollback (σ : DBState) (items : List CartItem)
    (pm : String) (sid : Option String) (ov : Option ℚ) (rid : String)
    (e : CheckoutError)
    (h : (processCheckout σ items pm sid ov rid).2 = .error e) :
    (∀ x, (processCheckout σ items pm sid ov rid).1.products x =
      σ.products x) ∧
    (processCheckout σ items pm sid ov rid).1.receipts = σ.receipts := by
  rcases hb : checkoutBody σ items pm sid ov rid with ⟨σb, res⟩
  rcases res with e' | r
  · simp [processCheckout, hb]
  · simp [processCheckout, hb] at h

/-- C3: after a successful checkout referencing a session, any second
checkout call for the same sessionId fails with the duplicate-checkout
error and leaves the state (receipts, stock) unchanged, so at most one
receipt ever references a given sessionId. -/
theorem processCheckout_duplicate_rejected (σ : DBState)
    (items : List CartItem) (pm : String) (sid : String) (ov : Option ℚ)
    (rid : String) (σ' : DBState) (r : Receipt)
    (h : processCheckout σ items pm (some sid) ov rid = (σ', .ok r))
    (items2 : List CartItem) (pm2 : String) (ov2 : Option ℚ) (rid2 : String) :
    (processCheckout σ' items2 pm2 (some sid) ov2 rid2).2 =
      .error .duplicateCheckout ∧
    (processCheckout σ' items2 pm2 (some sid) ov2 rid2).1 = σ' := by
  obtain ⟨hsess, hdup, ⟨z, hsb⟩⟩ :=
    processCheckout_ok_inv σ items pm (some sid) ov rid σ' r h
  rcases z with ⟨sub0, usage⟩
  obtain ⟨s, hs, hend, _, _⟩ :=
    sessionBranch_some_ok_inv σ sid ov sub0 usage hsb
  have hs' : σ'.sessions sid = some s := by rw [hsess sid, hs]
  have hdup' := hdup sid rfl
  have hbr : sessionBranch σ' (some sid) ov2 = .error .duplicateCheckout := by
    simp [sessionBranch, hs', hend, hdup']
  constructor
  · simp [processCheckout, checkoutBody, hbr]
  · simp [processCheckout, checkoutBody, hbr]

/-- C4: the charged console cost is manualOverridePrice when supplied
and the stored finalCost otherwise; a negative charged cost fails with
the negative-price error before any mutation; on success the receipt
records the calculated cost and the charged cost, the charged cost
enters the subtotal (total = subtotal + tax with tax rate 0), and the
sessions table (hence the stored finalCost) is not mutated. -/
theorem processCheckout_override_pricing (σ : DBState) (items : List CartItem)
    (pm : String) (sid : String) (ov : Option ℚ) (rid : String)
    (s : Session) (fc : ℚ)
    (hs : σ.sessions sid = some s) (hfc : s.finalCost = some fc) :
    (s.status = .ended →
      (σ.receipts.any fun rr => rr.sessionId = some sid) = false →
      (σ.consoles s.consoleId).isSome →
      ov.getD fc < 0 →
      processCheckout σ items pm (some sid) ov rid =
        (σ, .error .negativePrice)) ∧
    (∀ σ' r, processCheckout σ items pm (some sid) ov rid = (σ', .ok r) →
      ∃ cu, r.consoleUsage = some cu ∧ cu.calculatedCost = fc ∧
        cu.finalCost = ov.getD fc ∧
        r.subtotal = round2 (ov.getD fc + cartTotal σ items) ∧
        r.tax = 0 ∧ r.total = r.subtotal + r.tax ∧
        (∀ x, σ'.sessions x = σ.sessions x)) := by
  constructor
  · intro hend hdup hcons hneg
    obtain ⟨c, hc⟩ := Option.isSome_iff_exists.mp hcons
    have hbr : sessionBranch σ (some sid) ov = .error .negativePrice := by
      simp [sessionBranch, hs, hend, hdup, hfc, hc, hneg]
    simp [processCheckout, checkoutBody, hbr]
  · intro σ' r hok
    by_cases hend : s.status = .ended
    case neg =>
      simp [processCheckout, checkoutBody, sessionBranch, hs, hend] at hok
    by_cases hdup : (σ.receipts.any fun rr => rr.sessionId = some sid) = true
    · simp [processCheckout, checkoutBody, sessionBranch, hs, hend, hdup]
        at hok
    rcases hc : σ.consoles s.consoleId with _ | c
    · simp [processCheckout, checkoutBody, sessionBranch, hs, hend, hdup, hfc,
        hc] at hok
    by_cases hneg : ov.getD fc < 0
    · simp [processCheckout, checkoutBody, sessionBranch, hs, hend, hdup, hfc,
        hc, hneg] at hok
    rcases hl : processItemsLoop σ items (ov.getD fc) [] with ⟨σ1, res⟩
    rcases res with e | res
    · simp [processCheckout, checkoutBody, sessionBranch, hs, hend, hdup, hfc,
        hc, hneg, hl] at hok
    rcases res with ⟨sub1, lines1⟩
    simp [processCheckout, checkoutBody, sessionBranch, hs, hend, hdup,
      hfc, hc, hneg, hl, Prod.ext_iff] at hok
    obtain ⟨hσ', hr⟩ := hok
    subst hσ'
    subst hr
    refine ⟨_, rfl, rfl, rfl, ?_, ?_, ?_, ?_⟩
    · dsimp only
      rw [processItemsLoop_subtotal items σ (ov.getD fc) [] σ1 sub1 lines1 hl]
    · dsimp only
      simp [TAX_RATE, round2]
    · dsimp only
      simp [TAX_RATE, round2]
    · intro x
      have hpres := (processItemsLoop_preserves items σ (ov.getD fc) []).1 x
      rw [hl] at hpres
      exact hpres

/-- Witness for processCheckout_error_rollback: a two-line cart whose
second line exceeds stock; the first product's already-decremented stock
is restored by the rollback. -/
theorem processCheckout_error_rollback_witness :
    (processCheckout σW2 cartW2 "cash" none none "r1").2 =
      .error (.insufficientStock "p2") ∧
    ((processCheckout σW2 cartW2 "cash" none none "r1").1.products "p1").map
      Product.stock = some 5 ∧
    (processCheckout σW2 cartW2 "cash" none none "r1").1.receipts = [] := by
  have h : (processCheckout σW2 cartW2 "cash" none none "r1").2 =
      .error (.insufficientStock "p2") := rfl
  have h2 := processCheckout_error_rollback σW2 cartW2 "cash" none none "r1"
    (.insufficientStock "p2") h
  refine ⟨h, ?_, ?_⟩
  · rw [h2.1 "p1"]
    rfl
  · rw [h2.2]
    rfl

/-- Witness for processCheckout_duplicate_rejected: paying session s1
twice; the second call reports the duplicate. -/
theorem processCheckout_duplicate_rejected_witness :
    (processCheckout
      ((processCheckout σW3 [] "cash" (some "s1") none "r1").1)
      [] "card" (some "s1") none "r2").2 = .error .duplicateCheckout := by
  have h2 : (processCheckout σW3 [] "cash" (some "s1") none "r1").2 =
      .ok { id := "r1", sessionId := some "s1",
            consoleUsage := some
              { consoleName := "Console 1", consoleType := "PS5",
                gamingMode := .m1v1, duration := 60, rate := 8, baseRate := 8,
                rate2v2 := 12, calculatedCost := 8, finalCost := 8,
                subtotal := 8 },
            items := [], subtotal := 8, tax := 0, total := 8,
            paymentMethod := "cash" } := by
    simp [processCheckout, checkoutBody, sessionBranch, processItemsLoop, σW3,
      sesW3, conW, TAX_RATE]
    norm_num [round2, round_eq]
  have h : processCheckout σW3 [] "cash" (some "s1") none "r1" =
      ((processCheckout σW3 [] "cash" (some "s1") none "r1").1,
        .ok { id := "r1", sessionId := some "s1",
              consoleUsage := some
                { consoleName := "Console 1", consoleType := "PS5",
                  gamingMode := .m1v1, duration := 60, rate := 8, baseRate := 8,
                  rate2v2 := 12, calculatedCost := 8, finalCost := 8,
                  subtotal := 8 },
              items := [], subtotal := 8, tax := 0, total := 8,
              paymentMethod := "cash" }) := by
    rw [← h2]
  exact (processCheckout_duplicate_rejected σW3 [] "cash" "s1" none "r1" _ _ h
    [] "card" none "r2").1

/-- Witness for processCheckout_override_pricing at the spec scenario:
calculated cost 8.00, override 5.00, empty cart, receipt subtotal and
total 5.00. -/
theorem processCheckout_override_pricing_witness :
    σW3.sessions "s1" = some sesW3 ∧ sesW3.finalCost = some 8 ∧
    ∃ σ' r, processCheckout σW3 [] "cash" (some "s1") (some 5) "r1" =
        (σ', .ok r) ∧
      ∃ cu, r.consoleUsage = some cu ∧ cu.calculatedCost = 8 ∧
        cu.finalCost = (some (5 : ℚ)).getD 8 ∧
        r.subtotal = round2 ((some (5 : ℚ)).getD 8 + cartTotal σW3 []) ∧
        r.tax = 0 ∧ r.total = r.subtotal + r.tax := by
  refine ⟨rfl, rfl, ?_⟩
  have h2 : (processCheckout σW3 [] "cash" (some "s1") (some 5) "r1").2 =
      .ok { id := "r1", sessionId := some "s1",
            consoleUsage := some
              { consoleName := "Console 1", consoleType := "PS5",
                gamingMode := .m1v1, duration := 60, rate := 8, baseRate := 8,
                rate2v2 := 12, calculatedCost := 8, finalCost := 5,
                subtotal := 5 },
            items := [], subtotal := 5, tax := 0, total := 5,
            paymentMethod := "cash" } := by
    simp [processCheckout, checkoutBody, sessionBranch, processItemsLoop, σW3,
      sesW3, conW, TAX_RATE]
    norm_num [round2, round_eq]
  have h : processCheckout σW3 [] "cash" (some "s1") (some 5) "r1" =
      ((processCheckout σW3 [] "cash" (some "s1") (some 5) "r1").1,
        .ok { id := "r1", sessionId := some "s1",
              consoleUsage := some
                { consoleName := "Console 1", consoleType := "PS5",
                  gamingMode := .m1v1, duration := 60, rate := 8, baseRate := 8,
                  rate2v2 := 12, calculatedCost := 8, finalCost := 5,
                  subtotal := 5 },
              items := [], subtotal := 5, tax := 0, total := 5,
              paymentMethod := "cash" }) := by
    rw [← h2]
  obtain ⟨cu, hcu, hcc, hcf, hsub, htax, htot, _⟩ :=
    (processCheckout_override_pricing σW3 [] "cash" "s1" (some 5) "r1" sesW3 8
      rfl rfl).2 _ _ h
  exact ⟨_, _, h, cu, hcu, hcc, hcf, hsub, htax, htot⟩

/-- C7 counterexample: a 2v2 session ended after one hour on a console
with base rate 6 and no stored 2v2 rate. endSession stores
finalCost = 6 (its 2v2 fallback is the base rate), but
calculateSessionCost with the session's end-time mode recomputes 9 (its
fallback is 1.5 times the base rate), so the billing side re-derives a
different calculated cost. -/
theorem calculateSessionCost_divergence :
    ((σW7end.sessions "s1").map Session.gamingMode = some .m2v2) ∧
    ((σW7end.sessions "s1").bind Session.finalCost = some 6) ∧
    calculateSessionCost σW7end "s1" .m2v2 = .ok 9 ∧ (6 : ℚ) ≠ 9 := by
  refine ⟨?_, ?_, ?_, by norm_num⟩
  · simp [σW7end, endSession, σW7, DBState.setSession, DBState.setConsole,
      openPauseMs]
  · simp [σW7end, endSession, σW7, DBState.setSession, DBState.setConsole,
      openPauseMs]
    norm_num [round2, round_eq]
  · simp [σW7end, endSession, σW7, calculateSessionCost, DBState.setSession,
      DBState.setConsole, openPauseMs]
    norm_num [round2, round_eq]

/-- C7 amended: evaluated on the state endSession leaves behind,
calculateSessionCost with the session's end-time gaming mode returns
exactly the stored finalCost provided the console has a stored 2v2 rate
or the mode is 1v1; with no stored 2v2 rate and 2v2 mode the two sides
use different fallback rates (base versus 1.5 times base) and diverge. -/
theorem calculateSessionCost_matches_stored (σ : DBState) (sid : String)
    (now : ℤ) (s : Session) (c : Console)
    (hs : σ.sessions sid = some s) (hne : s.status ≠ .ended)
    (hc : σ.consoles s.consoleId = some c)
    (hrate : s.gamingMode = .m1v1 ∨ c.rate2v2.isSome) :
    ∃ s' fc, (endSession σ sid now).1.sessions sid = some s' ∧
      s'.finalCost = some fc ∧
      calculateSessionCost (endSession σ sid now).1 sid s'.gamingMode =
        .ok fc := by
  refine ⟨{ s with
              status := .ended
              endTime := some now
              finalCost := some (round2
                ((((max 0 (now - s.startTime -
                  (s.totalPausedDuration + openPauseMs s now))) : ℤ) : ℚ) /
                  3600000 *
                  (if s.gamingMode = .m2v2 then c.rate2v2.getD c.rate1v1
                    else c.rate1v1)))
              pausedAt := none
              totalPausedDuration :=
                s.totalPausedDuration + openPauseMs s now },
    _, ?_, rfl, ?_⟩
  · simp [endSession, hs, hne, hc, DBState.setSession, DBState.setConsole]
  · rcases hrate with h1 | h2
    · simp [calculateSessionCost, endSession, hs, hne, hc,
        DBState.setSession, DBState.setConsole, h1]
    · obtain ⟨r2, hr2⟩ := Option.isSome_iff_exists.mp h2
      simp [calculateSessionCost, endSession, hs, hne, hc,
        DBState.setSession, DBState.setConsole, hr2]

theorem pausedAtLeB_mono (σ : DBState) (sid : String) (t t' : ℤ)
    (hle : t ≤ t') (h : pausedAtLeB σ sid t = true) :
    pausedAtLeB σ sid t' = true := by
  rcases hs : σ.sessions sid with _ | s
  · simp [pausedAtLeB, hs]
  · rcases hp : s.pausedAt with _ | tp
    · simp [pausedAtLeB, hs, hp]
    · simp [pausedAtLeB, hs, hp] at h ⊢
      omega

theorem pauseSession_fst (σ : DBState) (sid : String) (now : ℤ) :
    (pauseSession σ sid now).1 =
      (match σ.sessions sid with
      | some s =>
        if s.status = .active then
          σ.setSession sid { s with status := .paused, pausedAt := some now }
        else σ
      | none => σ) := by
  unfold pauseSession
  dsimp only
  split <;> rfl

theorem openPauseMs_nonneg (s : Session) (t t' : ℤ) (hle : t ≤ t')
    (hpa : ∀ tp, s.pausedAt = some tp → tp ≤ t) : 0 ≤ openPauseMs s t' := by
  rcases hst : s.status <;> rcases hp : s.pausedAt with _ | tp <;>
    simp [openPauseMs, hst, hp]
  have h2 := hpa tp hp
  omega

/-- One lifecycle call made at or after instant t neither decreases the
stored total paused duration nor records a future pausedAt. -/
theorem applyOp_step (σ : DBState) (sid : String) (t : ℤ) (op : SessionOp)
    (hle : t ≤ op.time) (hpa : pausedAtLeB σ sid t = true) :
    totalPausedOf σ sid ≤ totalPausedOf (applyOp σ sid op) sid ∧
    pausedAtLeB (applyOp σ sid op) sid op.time = true := by
  have hpa' : ∀ s, σ.sessions sid = some s →
      ∀ tp, s.pausedAt = some tp → tp ≤ t := by
    intro s hs tp hp
    simp [pausedAtLeB, hs, hp] at hpa
    exact hpa
  rcases op with t' | t' | t'
  · simp only [SessionOp.time] at hle
    simp only [applyOp, SessionOp.time]
    rw [pauseSession_fst]
    rcases hs : σ.sessions sid with _ | s
    · exact ⟨le_refl _, pausedAtLeB_mono σ sid t t' hle hpa⟩
    · dsimp only
      by_cases hact : s.status = .active
      · rw [if_pos hact]
        constructor
        · simp [totalPausedOf, hs, DBState.setSession]
        · simp [pausedAtLeB, DBState.setSession]
      · rw [if_neg hact]
        exact ⟨le_refl _, pausedAtLeB_mono σ sid t t' hle hpa⟩
  · simp only [SessionOp.time] at hle
    simp only [applyOp, SessionOp.time]
    rcases hs : σ.sessions sid with _ | s
    · have h1 : (resumeSession σ sid t').1 = σ := by
        simp [resumeSession, hs]
      rw [h1]
      exact ⟨le_refl _, pausedAtLeB_mono σ sid t t' hle hpa⟩
    · by_cases hst : s.status = .paused
      · rcases hp : s.pausedAt with _ | tp
        · have h1 : (resumeSession σ sid t').1 = σ := by
            simp [resumeSession, hs, hst, hp]
          rw [h1]
          exact ⟨le_refl _, pausedAtLeB_mono σ sid t t' hle hpa⟩
        · have h1 : (resumeSession σ sid t').1 = σ.setSession sid
              { s with
                  status := .active
                  pausedAt := none
                  totalPausedDuration :=
                    s.totalPausedDuration + (t' - tp) } := by
            simp [resumeSession, hs, hst, hp]
          rw [h1]
          constructor
          · have h2 := hpa' s hs tp hp
            simp [totalPausedOf, hs, DBState.setSession]
            omega
          · simp [pausedAtLeB, DBState.setSession]
      · have h1 : (resumeSession σ sid t').1 = σ := by
          simp [resumeSession, hs, hst]
        rw [h1]
        exact ⟨le_refl _, pausedAtLeB_mono σ sid t t' hle hpa⟩
  · simp only [SessionOp.time] at hle
    simp only [applyOp, SessionOp.time]
    rcases hs : σ.sessions sid with _ | s
    · have h1 : (endSession σ sid t').1 = σ := by
        simp [endSession, hs]
      rw [h1]
      exact ⟨le_refl _, pausedAtLeB_mono σ sid t t' hle hpa⟩
    · by_cases hend : s.status = .ended
      · have h1 : (endSession σ sid t').1 = σ := by
          simp [endSession, hs, hend]
        rw [h1]
        exact ⟨le_refl _, pausedAtLeB_mono σ sid t t' hle hpa⟩
      · rcases hc : σ.consoles s.consoleId with _ | c
        · have h1 : (endSession σ sid t').1 = σ := by
            simp [endSession, hs, hend, hc]
          rw [h1]
          exact ⟨le_refl _, pausedAtLeB_mono σ sid t t' hle hpa⟩
        · have h1 : (endSession σ sid t').1 = (σ.setSession sid
              { s with
                  status := .ended
                  endTime := some t'
                  finalCost := some (round2
                    ((((max 0 (t' - s.startTime -
                      (s.totalPausedDuration + openPauseMs s t'))) : ℤ) : ℚ) /
                      3600000 *
                      (if s.gamingMode = .m2v2 then c.rate2v2.getD c.rate1v1
                        else c.rate1v1)))
                  pausedAt := none
                  totalPausedDuration :=
                    s.totalPausedDuration + openPauseMs s t' }).setConsole
              s.consoleId { c with status := .available } := by
            simp [endSession, hs, hend, hc]
          rw [h1]
          constructor
          · have h2 := openPauseMs_nonneg s t t' hle (hpa' s hs)
            simp [totalPausedOf, hs, DBState.setSession, DBState.setConsole]
            omega
          · simp [pausedAtLeB, DBState.setSession, DBState.setConsole]

/-- C8: along any chronological trace of pause, resume and end calls,
the stored totalPausedDuration of a session never decreases: resume adds
the non-negative elapsed pause interval, end adds the open pause
interval, and no operation reduces the value. -/
theorem totalPausedDuration_monotone (σ : DBState) (sid : String) (t0 : ℤ)
    (ops : List SessionOp) (hpa : pausedAtLeB σ sid t0 = true)
    (hch : chronoB t0 ops = true) :
    totalPausedOf σ sid ≤ totalPausedOf (applyOps σ sid ops) sid := by
  induction ops generalizing σ t0 with
  | nil => simp [applyOps]
  | cons op rest ih =>
    simp only [chronoB, Bool.and_eq_true, decide_eq_true_eq] at hch
    obtain ⟨hle, hch'⟩ := hch
    have hstep := applyOp_step σ sid t0 op hle hpa
    calc totalPausedOf σ sid
        ≤ totalPausedOf (applyOp σ sid op) sid := hstep.1
      _ ≤ totalPausedOf (applyOps (applyOp σ sid op) sid rest) sid :=
        ih (applyOp σ sid op) op.time hstep.2 hch'

/-- Witness for totalPausedDuration_monotone: pause at 600000, resume
at 1200000, end at 1800000 on the running session of σW6. -/
theorem totalPausedDuration_monotone_witness :
    pausedAtLeB σW6 "s1" 0 = true ∧
    chronoB 0 [SessionOp.pause 600000, SessionOp.resume 1200000,
      SessionOp.stop 1800000] = true ∧
    totalPausedOf σW6 "s1" ≤
      totalPausedOf (applyOps σW6 "s1"
        [SessionOp.pause 600000, SessionOp.resume 1200000,
          SessionOp.stop 1800000]) "s1" :=
  ⟨rfl, rfl, totalPausedDuration_monotone σW6 "s1" 0 _ rfl rfl⟩

/-- Witness for calculateSessionCost_matches_stored: the 1v1 session of
σW1 ended at 4500000. -/
theorem calculateSessionCost_matches_stored_witness :
    σW1.sessions "s1" = some sesW1 ∧ sesW1.gamingMode = .m1v1 ∧
    ∃ s' fc, (endSession σW1 "s1" 4500000).1.sessions "s1" = some s' ∧
      s'.finalCost = some fc ∧
      calculateSessionCost (endSession σW1 "s1" 4500000).1 "s1"
        s'.gamingMode = .ok fc :=
  ⟨rfl, rfl, calculateSessionCost_matches_stored σW1 "s1" 4500000 sesW1 conW
    rfl (by decide) rfl (Or.inl rfl)⟩
